import Mathlib

/-!
Shallow embedding of the DriveGuard frontend monitoring session controller
(src/src/App.js). The React component state, the mutable refs, and the
browser environment (media stream tracks, interval timers, in-flight HTTP
requests and the media-device acquisition) are modelled explicitly; the
asynchronous completions are events chosen by the environment, so traces of
events describe the cooperative, single-threaded scheduling of the page.

A detail that matters for faithfulness: the interval callback installed by
setInterval in toggleMonitoring is the closure of captureAndProcessFrame
from the render in which the start toggle was clicked, so the values of
thresholds and enableSound it reads are the ones captured at that render
(React state reads in a closure are snapshots, while refs are live). The
model therefore attaches a snapshot of (thresholds, enableSound) to the
timer, and each issued scoring request inherits that snapshot.
-/

namespace DriveGuard

/-- Detection thresholds (App.js lines 13-17); rationals stand in for the
JS numbers. -/
structure Thresholds where
  ear_threshold : ℚ
  mar_threshold : ℚ
  tilt_threshold : ℚ
deriving DecidableEq

/-- Metric block of a scoring response; absent JSON fields are none. -/
structure Metrics where
  ear : Option ℚ := none
  mar : Option ℚ := none
  tilt : Option ℚ := none
  eye_frames : Option ℚ := none
  yawn_frames : Option ℚ := none
  tilt_frames : Option ℚ := none
deriving DecidableEq

/-- Shape of the alertInfo state (App.js line 12 and the response of
POST /api/process-frame); every field optional, the initial value is the
empty object. -/
structure AlertInfo where
  alert : Option Bool := none
  type : Option String := none
  status : Option String := none
  metrics : Option Metrics := none
  detector_type : Option String := none
  error : Option String := none
deriving DecidableEq

/-- Value of the backendStatus state (App.js line 20). -/
inductive BackendStatus
  | checking
  | online
  | offline
deriving DecidableEq

/-- Snapshot of the React state captured by a render closure: the interval
callback reads thresholds and enableSound from the render in which the
start toggle was clicked. -/
structure Snap where
  thresholds : Thresholds
  enableSound : Bool
deriving DecidableEq

/-- One media track of an acquired camera stream; sid is the id of the
stream it belongs to, stopped records whether track.stop() has run. -/
structure Track where
  sid : Nat
  stopped : Bool
deriving DecidableEq

/-- An interval timer created by setInterval, carrying the closure
snapshot used by its ticks. -/
structure TimerEntry where
  id : Nat
  snap : Snap
deriving DecidableEq

/-- Whole model state: the React component state, the refs, and the
environment (tracks, live timers, pending async completions). -/
structure AppState where
  isMonitoring : Bool
  alertInfo : AlertInfo
  thresholds : Thresholds
  enableSound : Bool
  cameraError : String
  backendStatus : BackendStatus
  streamRef : Option Nat
  intervalRef : Option Nat
  videoSrc : Option Nat
  tracks : List Track
  activeTimers : List TimerEntry
  pendingAcquires : List Snap
  pendingScores : List Snap
  playAttempts : Nat
  nextId : Nat
deriving DecidableEq

/-- Camera error text set by the catch branch of startCamera
(App.js line 52). -/
def cameraDeniedMsg : String := "Camera access denied. Please allow camera permissions."

/-- Synthetic AlertInfo written by the catch branch of
captureAndProcessFrame (App.js lines 99-102). -/
def syntheticErrorAlert : AlertInfo :=
  { status := some "BACKEND ERROR", error := some "Failed to process frame" }

/-- The empty object used to initialise alertInfo (App.js line 12). -/
def emptyAlert : AlertInfo := {}

/-- Tracks of a freshly acquired stream: getUserMedia with the video-only
constraint yields the video tracks of one stream, none stopped yet. -/
def mkTracks (sid n : Nat) : List Track :=
  (List.range n).map (fun _ => { sid := sid, stopped := false })

/-- The effect of streamRef.current.getTracks().forEach(track.stop()):
every track of the referenced stream is stopped; with no stream held,
nothing happens (App.js lines 58-60). -/
def stopTracks (streamRef : Option Nat) (tks : List Track) : List Track :=
  match streamRef with
  | some sid => tks.map (fun tr => if tr.sid = sid then { tr with stopped := true } else tr)
  | none => tks

/-- The effect of clearInterval(intervalRef.current): the referenced timer
is cancelled; with no timer held, nothing happens (App.js lines 61-63). -/
def clearTimer (intervalRef : Option Nat) (tms : List TimerEntry) : List TimerEntry :=
  match intervalRef with
  | some tid => tms.filter (fun en => en.id ≠ tid)
  | none => tms

/-- stopCamera (App.js lines 57-65): stop all tracks of the held stream,
clear the held interval, set isMonitoring to false. The refs themselves
are not cleared and pending scoring requests are not cancelled, exactly as
in the source. -/
def stopCamera (s : AppState) : AppState :=
  { s with
    tracks := stopTracks s.streamRef s.tracks,
    activeTimers := clearTimer s.intervalRef s.activeTimers,
    isMonitoring := false }

/-- UI-enforced slider ranges (App.js lines 155-186): ear in [0.15, 0.35],
mar in [0.4, 0.8], tilt in [10, 30]. -/
def inRange (t : Thresholds) : Bool :=
  decide (mkRat 15 100 ≤ t.ear_threshold) && decide (t.ear_threshold ≤ mkRat 35 100) &&
  decide (mkRat 4 10 ≤ t.mar_threshold) && decide (t.mar_threshold ≤ mkRat 8 10) &&
  decide ((10 : ℚ) ≤ t.tilt_threshold) && decide (t.tilt_threshold ≤ (30 : ℚ))

/-- Events of the cooperative scheduler: user interactions and the
completions of the asynchronous operations the component starts. -/
inductive Ev
  | clickToggle
  | cameraOk (i nTracks : Nat)
  | cameraFail (i : Nat)
  | tick (tid : Nat) (ready : Bool)
  | scoreOk (i : Nat) (d : AlertInfo)
  | scoreErr (i : Nat)
  | healthOk
  | healthFail
  | setSound (b : Bool)
  | setThresholds (t : Thresholds)
  | unmount
deriving DecidableEq

/-- Small-step semantics of the component, one event at a time.

clickToggle: the monitor button (App.js lines 203-209) is disabled unless
backendStatus is online, so the click only fires then; toggleMonitoring
(lines 114-123) suspends at await startCamera() when not monitoring,
modelled by queueing a pending acquisition carrying the render snapshot,
and calls stopCamera when monitoring.

cameraOk i n: a pending getUserMedia resolves with a stream of n tracks;
the continuation of toggleMonitoring then runs: setIsMonitoring(true) and
setInterval(captureAndProcessFrame, 200), registering a timer with the
click-render snapshot. Note the continuation runs on the failure path too
(cameraFail), because startCamera catches its own error (lines 50-53) and
toggleMonitoring does not check for failure.

tick tid ready: an active timer fires; if the bound video surface reports
nonzero dimensions (ready, which requires a srcObject to have been bound),
a frame is encoded and a scoring request is issued (lines 68-105),
otherwise the tick is a no-op.

scoreOk / scoreErr: a pending scoring request resolves; the response
handler runs setAlertInfo and possibly playAlertSound (lines 89-103),
with no guard on whether the session has been stopped meanwhile.

unmount: the cleanup effect runs stopCamera (lines 131-135). -/
def step (s : AppState) (e : Ev) : AppState :=
  match e with
  | .clickToggle =>
      if s.backendStatus = .online then
        if s.isMonitoring then stopCamera s
        else { s with pendingAcquires := s.pendingAcquires ++ [⟨s.thresholds, s.enableSound⟩] }
      else s
  | .cameraOk i n =>
      match s.pendingAcquires[i]? with
      | none => s
      | some snap =>
          { s with
            pendingAcquires := s.pendingAcquires.eraseIdx i,
            tracks := s.tracks ++ mkTracks s.nextId n,
            streamRef := some s.nextId,
            videoSrc := some s.nextId,
            cameraError := "",
            isMonitoring := true,
            intervalRef := some (s.nextId + 1),
            activeTimers := s.activeTimers ++ [⟨s.nextId + 1, snap⟩],
            nextId := s.nextId + 2 }
  | .cameraFail i =>
      match s.pendingAcquires[i]? with
      | none => s
      | some snap =>
          { s with
            pendingAcquires := s.pendingAcquires.eraseIdx i,
            cameraError := cameraDeniedMsg,
            isMonitoring := true,
            intervalRef := some s.nextId,
            activeTimers := s.activeTimers ++ [⟨s.nextId, snap⟩],
            nextId := s.nextId + 1 }
  | .tick tid ready =>
      match s.activeTimers.find? (fun en => en.id = tid) with
      | none => s
      | some en =>
          if ready && s.videoSrc.isSome then
            { s with pendingScores := s.pendingScores ++ [en.snap] }
          else s
  | .scoreOk i d =>
      match s.pendingScores[i]? with
      | none => s
      | some snap =>
          if d.alert = some true ∧ snap.enableSound = true then
            { s with pendingScores := s.pendingScores.eraseIdx i, alertInfo := d,
                     playAttempts := s.playAttempts + 1 }
          else
            { s with pendingScores := s.pendingScores.eraseIdx i, alertInfo := d }
  | .scoreErr i =>
      match s.pendingScores[i]? with
      | none => s
      | some _ =>
          { s with pendingScores := s.pendingScores.eraseIdx i, alertInfo := syntheticErrorAlert }
  | .healthOk => { s with backendStatus := .online }
  | .healthFail => { s with backendStatus := .offline }
  | .setSound b => { s with enableSound := b }
  | .setThresholds t => if inRange t then { s with thresholds := t } else s
  | .unmount => stopCamera s

/-- Run a trace of events. -/
def run (s : AppState) (es : List Ev) : AppState :=
  es.foldl step s

/-- Initial component state (App.js lines 5-20). -/
def initState : AppState :=
  { isMonitoring := false
    alertInfo := emptyAlert
    thresholds := { ear_threshold := mkRat 22 100, mar_threshold := mkRat 40 100, tilt_threshold := 15 }
    enableSound := true
    cameraError := ""
    backendStatus := .checking
    streamRef := none
    intervalRef := none
    videoSrc := none
    tracks := []
    activeTimers := []
    pendingAcquires := []
    pendingScores := []
    playAttempts := 0
    nextId := 0 }

/-- Status badge text (App.js line 252): alertInfo.status or READY when
status is absent or the empty string (JS falsiness). -/
def statusBadge (a : AlertInfo) : String :=
  match a.status with
  | some st => if st = "" then "READY" else st
  | none => "READY"

/-- Whether the alert banner renders (App.js line 256): truthiness of
alertInfo.alert. -/
def bannerShown (a : AlertInfo) : Bool :=
  match a.alert with
  | some b => b
  | none => false

/-- Rendered value of a metric cell: either the default string (for an
absent or zero value, JS falsiness) or the numeric value. -/
inductive Disp
  | dflt (s : String)
  | num (q : ℚ)
deriving DecidableEq

/-- JS expression value || default as used by the metric cells
(App.js lines 265-273). -/
def dispOr (v : Option ℚ) (d : String) : Disp :=
  match v with
  | some q => if q = 0 then .dflt d else .num q
  | none => .dflt d

/-- Eye aspect ratio cell (App.js line 265). -/
def earDisp (a : AlertInfo) : Disp :=
  dispOr (a.metrics.bind Metrics.ear) "0.00"

/-- Mouth aspect ratio cell (App.js line 269). -/
def marDisp (a : AlertInfo) : Disp :=
  dispOr (a.metrics.bind Metrics.mar) "0.00"

/-- Head tilt cell (App.js line 273). -/
def tiltDisp (a : AlertInfo) : Disp :=
  dispOr (a.metrics.bind Metrics.tilt) "0"

/-- JS expression value || 0 used by the frame counters
(App.js lines 278-280). -/
def framesOr (v : Option ℚ) : ℚ :=
  match v with
  | some q => if q = 0 then 0 else q
  | none => 0

/-- Eye closed frames counter (App.js line 278). -/
def eyeFramesDisp (a : AlertInfo) : ℚ :=
  framesOr (a.metrics.bind Metrics.eye_frames)

/-- Yawn frames counter (App.js line 279). -/
def yawnFramesDisp (a : AlertInfo) : ℚ :=
  framesOr (a.metrics.bind Metrics.yawn_frames)

/-- Tilt frames counter (App.js line 280). -/
def tiltFramesDisp (a : AlertInfo) : ℚ :=
  framesOr (a.metrics.bind Metrics.tilt_frames)

/-- Macro events describing schedules in which every camera acquisition
resolves immediately after the toggle that started it, so no two start
toggles overlap; all other events are as in Ev. -/
inductive SeqEv
  | toggleOk (nTracks : Nat)
  | toggleFail
  | tick (tid : Nat) (ready : Bool)
  | scoreOk (i : Nat) (d : AlertInfo)
  | scoreErr (i : Nat)
  | healthOk
  | healthFail
  | setSound (b : Bool)
  | setThresholds (t : Thresholds)
  | unmount
deriving DecidableEq

/-- Expansion of a macro event into the underlying event trace. -/
def expandSeq : SeqEv → List Ev
  | .toggleOk n => [.clickToggle, .cameraOk 0 n]
  | .toggleFail => [.clickToggle, .cameraFail 0]
  | .tick tid r => [.tick tid r]
  | .scoreOk i d => [.scoreOk i d]
  | .scoreErr i => [.scoreErr i]
  | .healthOk => [.healthOk]
  | .healthFail => [.healthFail]
  | .setSound b => [.setSound b]
  | .setThresholds t => [.setThresholds t]
  | .unmount => [.unmount]

/-- Resource invariant of the controller under non-overlapping starts:
no acquisition is pending, at most one live timer which is the one held by
intervalRef, no live timer outside a session, every unstopped track belongs
to the stream held by streamRef, and outside a session every track is
stopped. -/
def Inv (s : AppState) : Prop :=
  s.pendingAcquires = [] ∧
  s.activeTimers.length ≤ 1 ∧
  (s.isMonitoring = false → s.activeTimers = []) ∧
  (∀ en ∈ s.activeTimers, s.intervalRef = some en.id) ∧
  (∀ tr ∈ s.tracks, tr.stopped = false → s.streamRef = some tr.sid) ∧
  (s.isMonitoring = false → ∀ tr ∈ s.tracks, tr.stopped = true)

/-- Zero active interval timers and zero active camera handles: the
resource-release postcondition of a full teardown. -/
def cleanedUp (s : AppState) : Prop :=
  s.activeTimers = [] ∧ ∀ tr ∈ s.tracks, tr.stopped = true

/-- Trace in which a session starts, one tick issues a scoring request,
and the session is stopped while that request is still in flight. -/
def stopTrace : List Ev :=
  [.healthOk, .clickToggle, .cameraOk 0 1, .tick 1 true, .clickToggle]

/-- A scoring response arriving late, after the stop. -/
def lateAlert : AlertInfo := { alert := some false, status := some "LATE" }

/-- Trace with two start clicks while the first camera acquisition is
still pending, then both acquisitions resolve. -/
def doubleToggleTrace : List Ev :=
  [.healthOk, .clickToggle, .clickToggle, .cameraOk 0 1, .cameraOk 0 1]

/-- Trace in which a session starts with sound alerts enabled, a tick
issues a scoring request, and the user then unchecks the sound box while
the request is in flight. -/
def soundOffTrace : List Ev :=
  [.healthOk, .clickToggle, .cameraOk 0 1, .tick 1 true, .setSound false]

/-- A successful scoring response carrying an alert. -/
def drowsyAlert : AlertInfo := { alert := some true, type := some "drowsiness" }

/-- A monitoring state with one live timer and one in-flight scoring
request whose closure snapshot has sound enabled. -/
def wState : AppState :=
  { initState with
    isMonitoring := true
    intervalRef := some 1
    activeTimers := [⟨1, ⟨initState.thresholds, true⟩⟩]
    pendingScores := [⟨initState.thresholds, true⟩] }

theorem run_append (s : AppState) (l1 l2 : List Ev) :
    run s (l1 ++ l2) = run (run s l1) l2 := by
  simp [run, List.foldl_append]

theorem filter_self_idem {α : Type} (p : α → Bool) (l : List α) :
    (l.filter p).filter p = l.filter p := by
  induction l with
  | nil => rfl
  | cons a tl ih =>
      by_cases h : p a = true
      · simp [List.filter_cons, h, ih]
      · simp [List.filter_cons, h, ih]

theorem stopTracks_idem (sr : Option Nat) (l : List Track) :
    stopTracks sr (stopTracks sr l) = stopTracks sr l := by
  cases sr with
  | none => rfl
  | some sid =>
      simp only [stopTracks, List.map_map]
      congr 1
      funext tr
      by_cases h : tr.sid = sid
      · simp [Function.comp, h]
      · simp [Function.comp, h]

theorem clearTimer_idem (ir : Option Nat) (l : List TimerEntry) :
    clearTimer ir (clearTimer ir l) = clearTimer ir l := by
  cases ir with
  | none => rfl
  | some tid => exact filter_self_idem _ l

theorem length_eraseIdx_le {α : Type} (l : List α) (i : Nat) :
    (l.eraseIdx i).length ≤ l.length := by
  induction l generalizing i with
  | nil => simp [List.eraseIdx]
  | cons a tl ih =>
      cases i with
      | zero => simp [List.eraseIdx]
      | succ j =>
          simp only [List.eraseIdx, List.length_cons]
          exact Nat.succ_le_succ (ih j)

theorem mem_mkTracks {sid n : Nat} {tr : Track} (h : tr ∈ mkTracks sid n) :
    tr = ⟨sid, false⟩ := by
  simp only [mkTracks, List.mem_map] at h
  obtain ⟨k, _, hk⟩ := h
  exact hk.symm

theorem inv_of_fields_eq (s1 s2 : AppState) (h : Inv s1)
    (hpa : s2.pendingAcquires = s1.pendingAcquires)
    (htm : s2.activeTimers = s1.activeTimers)
    (hir : s2.intervalRef = s1.intervalRef)
    (htr : s2.tracks = s1.tracks)
    (hsr : s2.streamRef = s1.streamRef)
    (him : s2.isMonitoring = s1.isMonitoring) : Inv s2 := by
  obtain ⟨h1, h2, h3, h4, h5, h6⟩ := h
  refine ⟨?_, ?_, ?_, ?_, ?_, ?_⟩
  · rw [hpa]; exact h1
  · rw [htm]; exact h2
  · rw [him, htm]; exact h3
  · intro en hen; rw [htm] at hen; rw [hir]; exact h4 en hen
  · intro tr ht hf; rw [htr] at ht; rw [hsr]; exact h5 tr ht hf
  · intro hm tr ht; rw [htr] at ht; rw [him] at hm; exact h6 hm tr ht

theorem stopCamera_timers_nil (s : AppState)
    (h4 : ∀ en ∈ s.activeTimers, s.intervalRef = some en.id) :
    (stopCamera s).activeTimers = [] := by
  cases hir : s.intervalRef with
  | none =>
      have htm : s.activeTimers = [] := by
        cases htm : s.activeTimers with
        | nil => rfl
        | cons en tl =>
            have h0 := h4 en (by rw [htm]; exact List.mem_cons_self en tl)
            rw [hir] at h0
            exact Option.noConfusion h0
      simp [stopCamera, clearTimer, hir, htm]
  | some tid =>
      simp only [stopCamera, clearTimer, hir]
      rw [List.filter_eq_nil_iff]
      intro en hen
      have h0 := h4 en hen
      rw [hir] at h0
      simp at h0
      simp [h0]

theorem stopCamera_tracks_stopped (s : AppState)
    (h5 : ∀ tr ∈ s.tracks, tr.stopped = false → s.streamRef = some tr.sid) :
    ∀ tr ∈ (stopCamera s).tracks, tr.stopped = true := by
  intro tr htr
  cases hsr : s.streamRef with
  | none =>
      have htr2 : tr ∈ s.tracks := by
        simpa [stopCamera, stopTracks, hsr] using htr
      by_contra hne
      have hfalse : tr.stopped = false := by
        cases hb : tr.stopped
        · rfl
        · exact absurd hb hne
      have h0 := h5 tr htr2 hfalse
      rw [hsr] at h0
      exact Option.noConfusion h0
  | some sid =>
      have htr2 : tr ∈ s.tracks.map
          (fun x => if x.sid = sid then { x with stopped := true } else x) := by
        simpa [stopCamera, stopTracks, hsr] using htr
      obtain ⟨x, hx, hfx⟩ := List.mem_map.mp htr2
      by_cases hxs : x.sid = sid
      · rw [← hfx]; simp [hxs]
      · rw [← hfx]; simp only [if_neg hxs]
        by_contra hne
        have hfalse : x.stopped = false := by
          cases hb : x.stopped
          · rfl
          · exact absurd hb hne
        have h0 := h5 x hx hfalse
        rw [hsr] at h0
        simp at h0
        exact hxs h0.symm

theorem inv_stopCamera (s : AppState) (h : Inv s) : Inv (stopCamera s) := by
  obtain ⟨h1, h2, h3, h4, h5, h6⟩ := h
  have htm := stopCamera_timers_nil s h4
  have htr := stopCamera_tracks_stopped s h5
  refine ⟨h1, ?_, ?_, ?_, ?_, ?_⟩
  · rw [htm]; simp
  · intro _; exact htm
  · intro en hen; rw [htm] at hen; exact absurd hen (List.not_mem_nil en)
  · intro tr h7 h8
    rw [htr tr h7] at h8
    exact Bool.noConfusion h8
  · intro _ tr h7; exact htr tr h7

theorem step_clickToggle_offline (s : AppState) (hb : ¬ s.backendStatus = .online) :
    step s .clickToggle = s := by
  simp [step, hb]

theorem step_clickToggle_stop (s : AppState) (hb : s.backendStatus = .online)
    (hm : s.isMonitoring = true) : step s .clickToggle = stopCamera s := by
  simp [step, hb, hm]

theorem step_clickToggle_start (s : AppState) (hb : s.backendStatus = .online)
    (hm : s.isMonitoring = false) :
    step s .clickToggle =
      { s with pendingAcquires := s.pendingAcquires ++ [⟨s.thresholds, s.enableSound⟩] } := by
  simp [step, hb, hm]

theorem step_cameraOk_none (s : AppState) (i n : Nat)
    (hp : s.pendingAcquires[i]? = none) : step s (.cameraOk i n) = s := by
  simp [step, hp]

theorem step_cameraOk_some (s : AppState) (i n : Nat) (snap : Snap)
    (hp : s.pendingAcquires[i]? = some snap) :
    step s (.cameraOk i n) =
      { s with
        pendingAcquires := s.pendingAcquires.eraseIdx i,
        tracks := s.tracks ++ mkTracks s.nextId n,
        streamRef := some s.nextId,
        videoSrc := some s.nextId,
        cameraError := "",
        isMonitoring := true,
        intervalRef := some (s.nextId + 1),
        activeTimers := s.activeTimers ++ [⟨s.nextId + 1, snap⟩],
        nextId := s.nextId + 2 } := by
  simp [step, hp]

theorem step_cameraFail_none (s : AppState) (i : Nat)
    (hp : s.pendingAcquires[i]? = none) : step s (.cameraFail i) = s := by
  simp [step, hp]

theorem step_cameraFail_some (s : AppState) (i : Nat) (snap : Snap)
    (hp : s.pendingAcquires[i]? = some snap) :
    step s (.cameraFail i) =
      { s with
        pendingAcquires := s.pendingAcquires.eraseIdx i,
        cameraError := cameraDeniedMsg,
        isMonitoring := true,
        intervalRef := some s.nextId,
        activeTimers := s.activeTimers ++ [⟨s.nextId, snap⟩],
        nextId := s.nextId + 1 } := by
  simp [step, hp]

theorem step_scoreOk_none (s : AppState) (i : Nat) (d : AlertInfo)
    (hp : s.pendingScores[i]? = none) : step s (.scoreOk i d) = s := by
  simp [step, hp]

theorem step_scoreOk_play (s : AppState) (i : Nat) (d : AlertInfo) (snap : Snap)
    (hp : s.pendingScores[i]? = some snap)
    (hc : d.alert = some true ∧ snap.enableSound = true) :
    step s (.scoreOk i d) =
      { s with pendingScores := s.pendingScores.eraseIdx i, alertInfo := d,
               playAttempts := s.playAttempts + 1 } := by
  simp [step, hp, hc]

theorem step_scoreOk_silent (s : AppState) (i : Nat) (d : AlertInfo) (snap : Snap)
    (hp : s.pendingScores[i]? = some snap)
    (hc : ¬ (d.alert = some true ∧ snap.enableSound = true)) :
    step s (.scoreOk i d) =
      { s with pendingScores := s.pendingScores.eraseIdx i, alertInfo := d } := by
  simp [step, hp, hc]

theorem step_scoreErr_none (s : AppState) (i : Nat)
    (hp : s.pendingScores[i]? = none) : step s (.scoreErr i) = s := by
  simp [step, hp]

theorem step_scoreErr_some (s : AppState) (i : Nat) (snap : Snap)
    (hp : s.pendingScores[i]? = some snap) :
    step s (.scoreErr i) =
      { s with pendingScores := s.pendingScores.eraseIdx i,
               alertInfo := syntheticErrorAlert } := by
  simp [step, hp]

theorem step_unmount (s : AppState) : step s .unmount = stopCamera s := rfl

theorem inv_tick (s : AppState) (tid : Nat) (r : Bool) (h : Inv s) :
    Inv (step s (.tick tid r)) := by
  cases hf : s.activeTimers.find? (fun en => en.id = tid) with
  | none =>
      have e1 : step s (.tick tid r) = s := by simp [step, hf]
      rw [e1]; exact h
  | some en =>
      by_cases hr : (r && s.videoSrc.isSome) = true
      · have e1 : step s (.tick tid r) =
            { s with pendingScores := s.pendingScores ++ [en.snap] } := by
          simp [step, hf, hr]
        rw [e1]
        exact inv_of_fields_eq s _ h rfl rfl rfl rfl rfl rfl
      · have e1 : step s (.tick tid r) = s := by simp [step, hf, hr]
        rw [e1]; exact h

theorem inv_scoreOk (s : AppState) (i : Nat) (d : AlertInfo) (h : Inv s) :
    Inv (step s (.scoreOk i d)) := by
  cases hp : s.pendingScores[i]? with
  | none => rw [step_scoreOk_none s i d hp]; exact h
  | some snap =>
      by_cases hc : d.alert = some true ∧ snap.enableSound = true
      · rw [step_scoreOk_play s i d snap hp hc]
        exact inv_of_fields_eq s _ h rfl rfl rfl rfl rfl rfl
      · rw [step_scoreOk_silent s i d snap hp hc]
        exact inv_of_fields_eq s _ h rfl rfl rfl rfl rfl rfl

theorem inv_scoreErr (s : AppState) (i : Nat) (h : Inv s) :
    Inv (step s (.scoreErr i)) := by
  cases hp : s.pendingScores[i]? with
  | none => rw [step_scoreErr_none s i hp]; exact h
  | some snap =>
      rw [step_scoreErr_some s i snap hp]
      exact inv_of_fields_eq s _ h rfl rfl rfl rfl rfl rfl

theorem inv_toggleOk (s : AppState) (n : Nat) (h : Inv s) :
    Inv (step (step s .clickToggle) (.cameraOk 0 n)) := by
  by_cases hb : s.backendStatus = .online
  · by_cases hm : s.isMonitoring = true
    · rw [step_clickToggle_stop s hb hm]
      have hp : (stopCamera s).pendingAcquires[0]? = none := by
        show s.pendingAcquires[0]? = none
        rw [h.1]; rfl
      rw [step_cameraOk_none _ 0 n hp]
      exact inv_stopCamera s h
    · have hm2 : s.isMonitoring = false := by
        cases hx : s.isMonitoring
        · rfl
        · exact absurd hx hm
      obtain ⟨h1, h2, h3, h4, h5, h6⟩ := h
      rw [step_clickToggle_start s hb hm2, h1]
      have hp : (({ s with pendingAcquires := [] ++ [⟨s.thresholds, s.enableSound⟩] } :
          AppState)).pendingAcquires[0]? = some (⟨s.thresholds, s.enableSound⟩ : Snap) := rfl
      rw [step_cameraOk_some _ 0 n _ hp]
      refine ⟨rfl, ?_, ?_, ?_, ?_, ?_⟩
      · have ht : s.activeTimers = [] := h3 hm2
        show (s.activeTimers ++ [(⟨s.nextId + 1, ⟨s.thresholds, s.enableSound⟩⟩ : TimerEntry)]).length ≤ 1
        rw [ht]; simp
      · intro hco
        have hco2 : true = false := hco
        exact Bool.noConfusion hco2
      · intro en hen
        have hen2 : en ∈ s.activeTimers ++ [(⟨s.nextId + 1, ⟨s.thresholds, s.enableSound⟩⟩ : TimerEntry)] := hen
        rw [h3 hm2] at hen2
        simp at hen2
        show some (s.nextId + 1) = some en.id
        rw [hen2]
      · intro tr ht hf
        have ht2 : tr ∈ s.tracks ++ mkTracks s.nextId n := ht
        rcases List.mem_append.mp ht2 with hl | hr2
        · have hst := h6 hm2 tr hl
          rw [hst] at hf
          exact Bool.noConfusion hf
        · have he := mem_mkTracks hr2
          show some s.nextId = some tr.sid
          rw [he]
      · intro hco
        have hco2 : true = false := hco
        exact Bool.noConfusion hco2
  · rw [step_clickToggle_offline s hb]
    have hp : s.pendingAcquires[0]? = none := by rw [h.1]; rfl
    rw [step_cameraOk_none s 0 n hp]
    exact h

theorem inv_toggleFail (s : AppState) (h : Inv s) :
    Inv (step (step s .clickToggle) (.cameraFail 0)) := by
  by_cases hb : s.backendStatus = .online
  · by_cases hm : s.isMonitoring = true
    · rw [step_clickToggle_stop s hb hm]
      have hp : (stopCamera s).pendingAcquires[0]? = none := by
        show s.pendingAcquires[0]? = none
        rw [h.1]; rfl
      rw [step_cameraFail_none _ 0 hp]
      exact inv_stopCamera s h
    · have hm2 : s.isMonitoring = false := by
        cases hx : s.isMonitoring
        · rfl
        · exact absurd hx hm
      obtain ⟨h1, h2, h3, h4, h5, h6⟩ := h
      rw [step_clickToggle_start s hb hm2, h1]
      have hp : (({ s with pendingAcquires := [] ++ [⟨s.thresholds, s.enableSound⟩] } :
          AppState)).pendingAcquires[0]? = some (⟨s.thresholds, s.enableSound⟩ : Snap) := rfl
      rw [step_cameraFail_some _ 0 _ hp]
      refine ⟨rfl, ?_, ?_, ?_, ?_, ?_⟩
      · have ht : s.activeTimers = [] := h3 hm2
        show (s.activeTimers ++ [(⟨s.nextId, ⟨s.thresholds, s.enableSound⟩⟩ : TimerEntry)]).length ≤ 1
        rw [ht]; simp
      · intro hco
        have hco2 : true = false := hco
        exact Bool.noConfusion hco2
      · intro en hen
        have hen2 : en ∈ s.activeTimers ++ [(⟨s.nextId, ⟨s.thresholds, s.enableSound⟩⟩ : TimerEntry)] := hen
        rw [h3 hm2] at hen2
        simp at hen2
        show some s.nextId = some en.id
        rw [hen2]
      · intro tr ht hf
        have ht2 : tr ∈ s.tracks := ht
        have hst := h6 hm2 tr ht2
        rw [hst] at hf
        exact Bool.noConfusion hf
      · intro hco
        have hco2 : true = false := hco
        exact Bool.noConfusion hco2
  · rw [step_clickToggle_offline s hb]
    have hp : s.pendingAcquires[0]? = none := by rw [h.1]; rfl
    rw [step_cameraFail_none s 0 hp]
    exact h

theorem inv_expand (e : SeqEv) (s : AppState) (h : Inv s) : Inv (run s (expandSeq e)) := by
  cases e with
  | toggleOk n => exact inv_toggleOk s n h
  | toggleFail => exact inv_toggleFail s h
  | tick tid r => exact inv_tick s tid r h
  | scoreOk i d => exact inv_scoreOk s i d h
  | scoreErr i => exact inv_scoreErr s i h
  | healthOk => exact inv_of_fields_eq s _ h rfl rfl rfl rfl rfl rfl
  | healthFail => exact inv_of_fields_eq s _ h rfl rfl rfl rfl rfl rfl
  | setSound b => exact inv_of_fields_eq s _ h rfl rfl rfl rfl rfl rfl
  | setThresholds t =>
      show Inv (step s (.setThresholds t))
      by_cases ht : inRange t = true
      · have e1 : step s (.setThresholds t) = { s with thresholds := t } := by
          simp [step, ht]
        rw [e1]
        exact inv_of_fields_eq s _ h rfl rfl rfl rfl rfl rfl
      · have e1 : step s (.setThresholds t) = s := by simp [step, ht]
        rw [e1]; exact h
  | unmount => exact inv_stopCamera s h

theorem inv_init : Inv initState := by
  refine ⟨rfl, by simp [initState], fun _ => rfl, ?_, ?_, ?_⟩
  · intro en hen; exact absurd hen (List.not_mem_nil en)
  · intro tr ht _; exact absurd ht (List.not_mem_nil tr)
  · intro _ tr ht; exact absurd ht (List.not_mem_nil tr)

theorem inv_runSeq (seq : List SeqEv) :
    ∀ s : AppState, Inv s → Inv (run s (seq.flatMap expandSeq)) := by
  induction seq with
  | nil => intro s h; exact h
  | cons e tl ih =>
      intro s h
      have hb : (e :: tl).flatMap expandSeq = expandSeq e ++ tl.flatMap expandSeq := rfl
      rw [hb, run_append]
      exact ih (run s (expandSeq e)) (inv_expand e s h)

theorem tick_noop_no_video (s : AppState) (tid : Nat) (r : Bool)
    (hv : s.videoSrc = none) : step s (.tick tid r) = s := by
  cases hf : s.activeTimers.find? (fun en => en.id = tid) with
  | none => simp [step, hf]
  | some en => simp [step, hf, hv]

/-- Claim C1, counterexample: with the backend online, a start toggle
whose camera acquisition fails sets the non-empty camera error, yet
isMonitoring becomes true and a sampling timer is started, contrary to
the claim that the session never transitions into Monitoring and that no
timer is started. -/
theorem cameraFail_enters_monitoring_cex :
    (run initState [.healthOk, .clickToggle, .cameraFail 0]).isMonitoring = true ∧
    (run initState [.healthOk, .clickToggle, .cameraFail 0]).activeTimers.length = 1 ∧
    (run initState [.healthOk, .clickToggle, .cameraFail 0]).cameraError = cameraDeniedMsg :=
  ⟨rfl, rfl, rfl⟩

/-- Claim C1, amended: when camera acquisition fails, a non-empty camera
error message is set, but the toggle still transitions the session into
Monitoring and still starts a sampling timer, because startCamera swallows
the failure and toggleMonitoring continues unconditionally; no stream and
no video binding is created, so on a fresh page every tick of that timer
is a no-op. -/
theorem cameraFail_sets_error_but_still_monitors (s : AppState)
    (hb : s.backendStatus = .online) (hm : s.isMonitoring = false)
    (hp : s.pendingAcquires = []) (hv : s.videoSrc = none) :
    (run s [.clickToggle, .cameraFail 0]).cameraError = cameraDeniedMsg ∧
    (run s [.clickToggle, .cameraFail 0]).isMonitoring = true ∧
    (run s [.clickToggle, .cameraFail 0]).activeTimers =
      s.activeTimers ++ [(⟨s.nextId, ⟨s.thresholds, s.enableSound⟩⟩ : TimerEntry)] ∧
    (run s [.clickToggle, .cameraFail 0]).tracks = s.tracks ∧
    (run s [.clickToggle, .cameraFail 0]).streamRef = s.streamRef ∧
    ∀ tid r, step (run s [.clickToggle, .cameraFail 0]) (.tick tid r) =
      run s [.clickToggle, .cameraFail 0] := by
  have e0 : run s [.clickToggle, .cameraFail 0] =
      step (step s .clickToggle) (.cameraFail 0) := rfl
  rw [e0, step_clickToggle_start s hb hm, hp]
  have hp2 : (({ s with pendingAcquires := [] ++ [⟨s.thresholds, s.enableSound⟩] } :
      AppState)).pendingAcquires[0]? = some (⟨s.thresholds, s.enableSound⟩ : Snap) := rfl
  rw [step_cameraFail_some _ 0 _ hp2]
  refine ⟨rfl, rfl, rfl, rfl, rfl, ?_⟩
  intro tid r
  exact tick_noop_no_video _ tid r hv

/-- Claim C1, witness for the amended theorem at the concrete state after
the initial health check succeeds. -/
theorem cameraFail_sets_error_but_still_monitors_w :
    (run (step initState .healthOk) [.clickToggle, .cameraFail 0]).isMonitoring = true :=
  (cameraFail_sets_error_but_still_monitors (step initState .healthOk) rfl rfl rfl rfl).2.1

/-- Claim C2: evaluation at the failing schedule. A session starts, one
tick issues a scoring request, and the session is stopped while the
request is in flight; when the request then resolves, the handler
overwrites alertInfo with the late response (isMonitoring does stay
false), so the late response is not discarded as the claim requires. -/
theorem late_response_overwrites_after_stop :
    (run initState stopTrace).isMonitoring = false ∧
    (run initState stopTrace).alertInfo = emptyAlert ∧
    (run initState stopTrace).pendingScores.length = 1 ∧
    (step (run initState stopTrace) (.scoreOk 0 lateAlert)).alertInfo = lateAlert ∧
    (step (run initState stopTrace) (.scoreOk 0 lateAlert)).isMonitoring = false ∧
    lateAlert ≠ emptyAlert := by
  refine ⟨rfl, rfl, rfl, rfl, rfl, ?_⟩
  decide

/-- Claim C3, counterexample: two start clicks while the first camera
acquisition is still pending give two live interval timers and two live
streams at once; the refs retain only the second timer and stream, so the
first pair is leaked and is not stopped first. -/
theorem double_toggle_two_timers_cex :
    (run initState doubleToggleTrace).activeTimers.length = 2 ∧
    (run initState doubleToggleTrace).tracks =
      [(⟨0, false⟩ : Track), (⟨2, false⟩ : Track)] ∧
    (run initState doubleToggleTrace).streamRef = some 2 ∧
    (run initState doubleToggleTrace).intervalRef = some 3 :=
  ⟨rfl, rfl, rfl, rfl⟩

/-- Claim C3, amended: in every schedule in which each camera acquisition
resolves before the next event (so no two start toggles overlap), every
reachable state has at most one live sampling timer, and any two unstopped
tracks belong to the same stream; two start clicks during one pending
acquisition violate the invariant. -/
theorem sequential_toggles_single_timer_and_stream (seq : List SeqEv) :
    (run initState (seq.flatMap expandSeq)).activeTimers.length ≤ 1 ∧
    ∀ tr1 ∈ (run initState (seq.flatMap expandSeq)).tracks,
      ∀ tr2 ∈ (run initState (seq.flatMap expandSeq)).tracks,
        tr1.stopped = false → tr2.stopped = false → tr1.sid = tr2.sid := by
  obtain ⟨h1, h2, h3, h4, h5, h6⟩ := inv_runSeq seq initState inv_init
  refine ⟨h2, ?_⟩
  intro tr1 ht1 tr2 ht2 hf1 hf2
  have e1 := h5 tr1 ht1 hf1
  have e2 := h5 tr2 ht2 hf2
  rw [e1] at e2
  exact Option.some_inj.mp e2

/-- Claim C3, witness for the amended theorem at a concrete schedule. -/
theorem sequential_toggles_single_timer_and_stream_w :
    (run initState ([SeqEv.toggleOk 1].flatMap expandSeq)).activeTimers.length ≤ 1 :=
  (sequential_toggles_single_timer_and_stream [SeqEv.toggleOk 1]).1

/-- Claim C4: for every threshold triple inside the UI-enforced slider
ranges, a start toggle followed by a stop toggle ends with zero live
timers and every media track stopped, and the same full teardown happens
when the termination path is component unmount, on both the successful
and the failed camera acquisition paths. -/
theorem start_stop_full_teardown (t : Thresholds) (h : inRange t = true) :
    cleanedUp (run initState
      [.healthOk, .setThresholds t, .clickToggle, .cameraOk 0 1, .clickToggle]) ∧
    cleanedUp (run initState
      [.healthOk, .setThresholds t, .clickToggle, .cameraOk 0 1, .unmount]) ∧
    cleanedUp (run initState
      [.healthOk, .setThresholds t, .clickToggle, .cameraFail 0, .clickToggle]) ∧
    cleanedUp (run initState
      [.healthOk, .setThresholds t, .clickToggle, .cameraFail 0, .unmount]) := by
  have E : run initState [.healthOk, .setThresholds t] =
      { initState with backendStatus := .online, thresholds := t } := by
    show step (step initState .healthOk) (.setThresholds t) = _
    simp [step, h]
  have okTracks : ∀ tr ∈ [(⟨0, true⟩ : Track)], tr.stopped = true := by
    intro tr htr
    simp at htr
    rw [htr]
  refine ⟨?_, ?_, ?_, ?_⟩
  · rw [show ([.healthOk, .setThresholds t, .clickToggle, .cameraOk 0 1, .clickToggle] :
        List Ev) = [.healthOk, .setThresholds t] ++ [.clickToggle, .cameraOk 0 1, .clickToggle]
        from rfl, run_append, E]
    exact ⟨rfl, okTracks⟩
  · rw [show ([.healthOk, .setThresholds t, .clickToggle, .cameraOk 0 1, .unmount] :
        List Ev) = [.healthOk, .setThresholds t] ++ [.clickToggle, .cameraOk 0 1, .unmount]
        from rfl, run_append, E]
    exact ⟨rfl, okTracks⟩
  · rw [show ([.healthOk, .setThresholds t, .clickToggle, .cameraFail 0, .clickToggle] :
        List Ev) = [.healthOk, .setThresholds t] ++ [.clickToggle, .cameraFail 0, .clickToggle]
        from rfl, run_append, E]
    refine ⟨rfl, ?_⟩
    intro tr htr
    exact absurd htr (List.not_mem_nil tr)
  · rw [show ([.healthOk, .setThresholds t, .clickToggle, .cameraFail 0, .unmount] :
        List Ev) = [.healthOk, .setThresholds t] ++ [.clickToggle, .cameraFail 0, .unmount]
        from rfl, run_append, E]
    refine ⟨rfl, ?_⟩
    intro tr htr
    exact absurd htr (List.not_mem_nil tr)

/-- Claim C4, witness at the default thresholds, which lie inside the
slider ranges. -/
theorem start_stop_full_teardown_w :
    cleanedUp (run initState
      [.healthOk, .setThresholds initState.thresholds, .clickToggle,
       .cameraOk 0 1, .clickToggle]) :=
  (start_stop_full_teardown initState.thresholds (by decide)).1

/-- Claim C5: a scoring-call failure during an active session leaves
isMonitoring true, leaves the live timers and the interval ref unchanged
(so the next tick still fires at the configured period), and writes the
synthetic BACKEND ERROR AlertInfo in place of the normal payload. -/
theorem score_error_keeps_monitoring (s : AppState) (i : Nat) (snap : Snap)
    (hm : s.isMonitoring = true) (hp : s.pendingScores[i]? = some snap) :
    (step s (.scoreErr i)).isMonitoring = true ∧
    (step s (.scoreErr i)).activeTimers = s.activeTimers ∧
    (step s (.scoreErr i)).intervalRef = s.intervalRef ∧
    (step s (.scoreErr i)).alertInfo = syntheticErrorAlert := by
  rw [step_scoreErr_some s i snap hp]
  exact ⟨hm, rfl, rfl, rfl⟩

/-- Claim C5, witness at a concrete monitoring state with one in-flight
scoring request. -/
theorem score_error_keeps_monitoring_w :
    (step wState (.scoreErr 0)).isMonitoring = true :=
  (score_error_keeps_monitoring wState 0 ⟨initState.thresholds, true⟩ rfl rfl).1

/-- Claim C6, counterexample: after the sound checkbox is unchecked
mid-session (enableSound is false in the component state), a successful
response with alert true still adds a playback attempt, because the
interval closure consults the enableSound value captured when the session
started. -/
theorem sound_disabled_playback_cex :
    (run initState soundOffTrace).enableSound = false ∧
    (run initState soundOffTrace).playAttempts = 0 ∧
    drowsyAlert.alert = some true ∧
    (step (run initState soundOffTrace) (.scoreOk 0 drowsyAlert)).playAttempts = 1 :=
  ⟨rfl, rfl, rfl, rfl⟩

/-- Claim C6, amended: playback is gated by the enableSound snapshot
carried by the scoring request, captured when the session started: a
successful response with alert true and that snapshot true adds exactly
one playback attempt; with the snapshot false, or with alert not true, no
attempt is added; and the handler never changes the live timers or
isMonitoring, so playback, and its possible failure, which the handler
swallows, never stops the loop. Unchecking the sound box mid-session does
not affect the running loop. -/
theorem alert_playback_gating (s : AppState) (i : Nat) (d : AlertInfo) (snap : Snap)
    (hp : s.pendingScores[i]? = some snap) :
    (d.alert = some true → snap.enableSound = true →
      (step s (.scoreOk i d)).playAttempts = s.playAttempts + 1) ∧
    (snap.enableSound = false → (step s (.scoreOk i d)).playAttempts = s.playAttempts) ∧
    (¬ d.alert = some true → (step s (.scoreOk i d)).playAttempts = s.playAttempts) ∧
    (step s (.scoreOk i d)).activeTimers = s.activeTimers ∧
    (step s (.scoreOk i d)).isMonitoring = s.isMonitoring ∧
    (step s (.scoreOk i d)).alertInfo = d := by
  by_cases hc : d.alert = some true ∧ snap.enableSound = true
  · rw [step_scoreOk_play s i d snap hp hc]
    refine ⟨fun _ _ => rfl, ?_, ?_, rfl, rfl, rfl⟩
    · intro hf
      rw [hc.2] at hf
      exact Bool.noConfusion hf
    · intro hne
      exact absurd hc.1 hne
  · rw [step_scoreOk_silent s i d snap hp hc]
    refine ⟨?_, fun _ => rfl, fun _ => rfl, rfl, rfl, rfl⟩
    intro ha hs
    exact absurd ⟨ha, hs⟩ hc

/-- Claim C6, witness for the amended theorem: an alert response with the
sound snapshot enabled adds exactly one playback attempt. -/
theorem alert_playback_gating_w :
    (step wState (.scoreOk 0 drowsyAlert)).playAttempts = wState.playAttempts + 1 :=
  (alert_playback_gating wState 0 drowsyAlert ⟨initState.thresholds, true⟩ rfl).1 rfl rfl

/-- Claim C7: the monitor button is disabled unless backendStatus is
online, so a toggle click in any other state is a no-op; and the pending
camera acquisitions can only grow through a click processed while
backendStatus is online, so a session can only ever be started from a
state whose last health check reported online. -/
theorem start_gated_on_backend_online (s : AppState) :
    (¬ s.backendStatus = .online → step s .clickToggle = s) ∧
    ∀ e : Ev, s.pendingAcquires.length < (step s e).pendingAcquires.length →
      e = .clickToggle ∧ s.backendStatus = .online := by
  constructor
  · intro hb
    exact step_clickToggle_offline s hb
  · intro e hgrow
    cases e with
    | clickToggle =>
        refine ⟨rfl, ?_⟩
        by_cases hb : s.backendStatus = .online
        · exact hb
        · rw [step_clickToggle_offline s hb] at hgrow
          exact absurd hgrow (lt_irrefl _)
    | cameraOk i n =>
        exfalso
        cases hp : s.pendingAcquires[i]? with
        | none =>
            rw [step_cameraOk_none s i n hp] at hgrow
            exact absurd hgrow (lt_irrefl _)
        | some snap =>
            rw [step_cameraOk_some s i n snap hp] at hgrow
            exact absurd hgrow (not_lt.mpr (length_eraseIdx_le s.pendingAcquires i))
    | cameraFail i =>
        exfalso
        cases hp : s.pendingAcquires[i]? with
        | none =>
            rw [step_cameraFail_none s i hp] at hgrow
            exact absurd hgrow (lt_irrefl _)
        | some snap =>
            rw [step_cameraFail_some s i snap hp] at hgrow
            exact absurd hgrow (not_lt.mpr (length_eraseIdx_le s.pendingAcquires i))
    | tick tid r =>
        exfalso
        cases hf : s.activeTimers.find? (fun en => en.id = tid) with
        | none =>
            have e1 : step s (.tick tid r) = s := by simp [step, hf]
            rw [e1] at hgrow
            exact absurd hgrow (lt_irrefl _)
        | some en =>
            by_cases hr : (r && s.videoSrc.isSome) = true
            · have e1 : step s (.tick tid r) =
                  { s with pendingScores := s.pendingScores ++ [en.snap] } := by
                simp [step, hf, hr]
              rw [e1] at hgrow
              exact absurd hgrow (lt_irrefl _)
            · have e1 : step s (.tick tid r) = s := by simp [step, hf, hr]
              rw [e1] at hgrow
              exact absurd hgrow (lt_irrefl _)
    | scoreOk i d =>
        exfalso
        cases hp : s.pendingScores[i]? with
        | none =>
            rw [step_scoreOk_none s i d hp] at hgrow
            exact absurd hgrow (lt_irrefl _)
        | some snap =>
            by_cases hc : d.alert = some true ∧ snap.enableSound = true
            · rw [step_scoreOk_play s i d snap hp hc] at hgrow
              exact absurd hgrow (lt_irrefl _)
            · rw [step_scoreOk_silent s i d snap hp hc] at hgrow
              exact absurd hgrow (lt_irrefl _)
    | scoreErr i =>
        exfalso
        cases hp : s.pendingScores[i]? with
        | none =>
            rw [step_scoreErr_none s i hp] at hgrow
            exact absurd hgrow (lt_irrefl _)
        | some snap =>
            rw [step_scoreErr_some s i snap hp] at hgrow
            exact absurd hgrow (lt_irrefl _)
    | healthOk => exact absurd hgrow (lt_irrefl _)
    | healthFail => exact absurd hgrow (lt_irrefl _)
    | setSound b => exact absurd hgrow (lt_irrefl _)
    | setThresholds t =>
        exfalso
        by_cases ht : inRange t = true
        · have e1 : step s (.setThresholds t) = { s with thresholds := t } := by
            simp [step, ht]
          rw [e1] at hgrow
          exact absurd hgrow (lt_irrefl _)
        · have e1 : step s (.setThresholds t) = s := by simp [step, ht]
          rw [e1] at hgrow
          exact absurd hgrow (lt_irrefl _)
    | unmount => exact absurd hgrow (lt_irrefl _)

/-- Claim C7, witness: in the initial state the backend status is
checking, so a toggle click is a no-op. -/
theorem start_gated_on_backend_online_w :
    step initState .clickToggle = initState :=
  (start_gated_on_backend_online initState).1 (by decide)

/-- Claim C8: stopCamera is idempotent, so release after release equals a
single release; with no held stream it leaves the track list untouched,
being a total function that never raises; and it stops every underlying
track of the held stream. -/
theorem release_idempotent_and_total (s : AppState) :
    stopCamera (stopCamera s) = stopCamera s ∧
    (s.streamRef = none → (stopCamera s).tracks = s.tracks) ∧
    (∀ tr ∈ (stopCamera s).tracks, s.streamRef = some tr.sid → tr.stopped = true) := by
  refine ⟨?_, ?_, ?_⟩
  · simp [stopCamera, stopTracks_idem, clearTimer_idem]
  · intro h0
    simp [stopCamera, stopTracks, h0]
  · intro tr htr hsr
    cases hsr2 : s.streamRef with
    | none =>
        rw [hsr2] at hsr
        exact Option.noConfusion hsr
    | some sid =>
        rw [hsr2] at hsr
        have hs : sid = tr.sid := Option.some_inj.mp hsr
        have htr2 : tr ∈ s.tracks.map
            (fun x => if x.sid = sid then { x with stopped := true } else x) := by
          simpa [stopCamera, stopTracks, hsr2] using htr
        obtain ⟨x, hx, hfx⟩ := List.mem_map.mp htr2
        by_cases hxs : x.sid = sid
        · rw [← hfx]
          simp [hxs]
        · rw [← hfx] at hs ⊢
          simp only [if_neg hxs] at hs ⊢
          exact absurd hs.symm hxs

/-- Claim C8, witness: releasing in the initial state, which holds no
stream, leaves the track list untouched. -/
theorem release_idempotent_and_total_w :
    (stopCamera initState).tracks = initState.tracks :=
  (release_idempotent_and_total initState).2.1 rfl

/-- Claim C9: the synthetic error AlertInfo carries no alert field, so a
failing scoring call never adds a playback attempt and never makes the
alert banner render. -/
theorem score_error_no_alert_effects (s : AppState) (i : Nat) :
    syntheticErrorAlert.alert = none ∧
    (step s (.scoreErr i)).playAttempts = s.playAttempts ∧
    (∀ snap, s.pendingScores[i]? = some snap →
      bannerShown (step s (.scoreErr i)).alertInfo = false) := by
  refine ⟨rfl, ?_, ?_⟩
  · cases hp : s.pendingScores[i]? with
    | none => rw [step_scoreErr_none s i hp]
    | some snap => rw [step_scoreErr_some s i snap hp]
  · intro snap hp
    rw [step_scoreErr_some s i snap hp]
    rfl

/-- Claim C9, witness at a concrete monitoring state with one in-flight
scoring request. -/
theorem score_error_no_alert_effects_w :
    bannerShown (step wState (.scoreErr 0)).alertInfo = false :=
  (score_error_no_alert_effects wState 0).2.2 ⟨initState.thresholds, true⟩ rfl

/-- Claim C10: the initial alertInfo is the empty object, for which the
presentation renders the READY status badge, no alert banner, the 0.00
defaults for the ratio cells, the 0 default for the tilt cell, and zero
for all three frame counters. -/
theorem initial_render_defaults :
    initState.alertInfo = emptyAlert ∧
    statusBadge emptyAlert = "READY" ∧
    bannerShown emptyAlert = false ∧
    earDisp emptyAlert = .dflt "0.00" ∧
    marDisp emptyAlert = .dflt "0.00" ∧
    tiltDisp emptyAlert = .dflt "0" ∧
    eyeFramesDisp emptyAlert = 0 ∧
    yawnFramesDisp emptyAlert = 0 ∧
    tiltFramesDisp emptyAlert = 0 :=
  ⟨rfl, rfl, rfl, rfl, rfl, rfl, rfl, rfl, rfl⟩

end DriveGuard
